import Mathlib

/-!
Verification development for the node-websocket-Chatroom server core:
the device-fingerprint hashing and similarity algorithms, the
registration/login decision procedures (src/server/fingerprint.js) and the
session/message-routing layer (src/server/io.js), shallowly embedded in
Lean 4.

JavaScript values flowing through the fingerprint code are modelled by
`JsVal`; feature bundles are association lists of named `JsVal`s, exactly
as the client submits them.  Stateful nedb operations are modelled by
explicit state passing over a `FpDB` value; fallible storage is modelled
by `Except Unit`, matching the callback `err` channel of nedb.
-/

/-- A JavaScript value as the fingerprint code consumes it: strings,
integer-valued numbers, booleans, arrays of strings (font / plugin lists)
and nested objects (the `fingerprintjs` sub-object). -/
inductive JsVal where
  | str : String → JsVal
  | num : Int → JsVal
  | bool : Bool → JsVal
  | list : List String → JsVal
  | obj : List (String × JsVal) → JsVal
deriving Repr

/-- JavaScript truthiness: the empty string, `0` and `false` are falsy; arrays and
objects are always truthy. -/
def JsVal.truthy : JsVal → Bool
  | .str s => s ≠ ""
  | .num n => n ≠ 0
  | .bool b => b
  | .list _ => true
  | .obj _ => true

/-- Truthiness of a possibly-absent (`undefined`) value. -/
def truthyOpt : Option JsVal → Bool
  | none => false
  | some v => v.truthy

/-- Property lookup on an object's field list (first binding wins, as in a
JS object, whose keys are unique by construction). -/
def lookupField : List (String × JsVal) → String → Option JsVal
  | [], _ => none
  | (k, v) :: rest, key => if k == key then some v else lookupField rest key

/-- A client-submitted feature bundle: the fingerprint object itself. -/
abbrev Bundle := List (String × JsVal)

/-- JSON string escaping for the two characters that matter to
`JSON.stringify` on the data the server handles. -/
def jsonEscape (s : String) : String :=
  String.join (s.data.map (fun c =>
    if c = '"' then "\\\"" else if c = '\\' then "\\\\" else String.singleton c))

def jsonQuote (s : String) : String := "\"" ++ jsonEscape s ++ "\""

mutual

/-- Image of a `JsVal` under `JSON.stringify`. -/
def JsVal.stringify : JsVal → String
  | .str s => jsonQuote s
  | .num n => toString n
  | .bool b => cond b "true" "false"
  | .list l => "[" ++ String.intercalate "," (l.map jsonQuote) ++ "]"
  | .obj fields => "\x7b" ++ String.intercalate "," (stringifyFields fields) ++ "\x7d"

def stringifyFields : List (String × JsVal) → List String
  | [] => []
  | (k, v) :: rest => (jsonQuote k ++ ":" ++ JsVal.stringify v) :: stringifyFields rest

end

/-- One step of `getNestedValue(obj, path)` from `analyzeFingerprintSimilarity`:
`path.split('.').reduce((current, key) => current && current[key], obj)`.
A falsy intermediate value is propagated unchanged (JS `&&`); indexing a
truthy non-object yields `undefined`. -/
def getNestedStep (cur : Option JsVal) (key : String) : Option JsVal :=
  match cur with
  | none => none
  | some v =>
    if v.truthy then
      match v with
      | .obj fields => lookupField fields key
      | _ => none
    else some v

/-- The segments `path.split('.')`, stated over the character list so that it reduces
in the kernel. -/
def pathSegments (path : String) : List String :=
  (path.data.splitOn '.').map String.mk

def getNestedValue (data : Bundle) (path : String) : Option JsVal :=
  (pathSegments path).foldl getNestedStep (some (.obj data))

/-- One row of the `keyFeatures` weight table of
`analyzeFingerprintSimilarity`. -/
structure Feature where
  path : String
  weight : Nat
  name : String
deriving Repr, DecidableEq

/-- The fixed comparable-feature table of `analyzeFingerprintSimilarity`
(weights and order exactly as in the source; the `name` field keeps the
source's display strings). -/
def keyFeatures : List Feature :=
  [ ⟨"userAgent", 2, "browser-ua"⟩,
    ⟨"screenResolution", 3, "screen-resolution"⟩,
    ⟨"timezone", 2, "timezone"⟩,
    ⟨"hardwareConcurrency", 3, "cpu-cores"⟩,
    ⟨"deviceMemory", 3, "device-memory"⟩,
    ⟨"canvasFingerprint", 4, "canvas"⟩,
    ⟨"webglVendor", 3, "webgl-vendor"⟩,
    ⟨"webglRenderer", 3, "webgl-renderer"⟩,
    ⟨"audioFingerprint", 4, "audio"⟩,
    ⟨"fonts", 2, "font-list"⟩,
    ⟨"fingerprintjs.visitorId", 5, "fingerprintjs-id"⟩ ]

/-- The coercion `Array.isArray(value) ? value : []`. -/
def asStringList : JsVal → List String
  | .list l => l
  | _ => []

/-- The per-feature match test of `analyzeFingerprintSimilarity`, applied
once both values are present and truthy.  `fonts` match when the common
fonts cover at least 80% of the smaller list (`common.length >=
min(len1, len2) * 0.8`, stated over integers as `10*common ≥ 8*min`);
strings match by equality; anything else by equality of its
`JSON.stringify` image. -/
def featureValueMatches (path : String) (v1 v2 : JsVal) : Bool :=
  if path == "fonts" then
    let fonts1 := asStringList v1
    let fonts2 := asStringList v2
    let commonFonts := fonts1.filter (fun f => fonts2.contains f)
    10 * commonFonts.length ≥ 8 * min fonts1.length fonts2.length
  else
    match v1, v2 with
    | .str s1, .str s2 => s1 == s2
    | _, _ => JsVal.stringify v1 == JsVal.stringify v2

/-- One entry of the `similarities` output list. -/
structure SimilarityEntry where
  feature : String
  weight : Nat
  matched : Bool
deriving Repr, DecidableEq

/-- The `forEach` body: a feature contributes an entry exactly when its
value is present and truthy in both bundles. -/
def compareFeature (data1 data2 : Bundle) (f : Feature) : Option SimilarityEntry :=
  match getNestedValue data1 f.path, getNestedValue data2 f.path with
  | some v1, some v2 =>
    if v1.truthy && v2.truthy then
      some ⟨f.name, f.weight, featureValueMatches f.path v1 v2⟩
    else none
  | _, _ => none

/-- Result record of `analyzeFingerprintSimilarity`. -/
structure SimilarityResult where
  similarityScore : ℚ
  matchCount : Nat
  totalWeight : Nat
  similarities : List SimilarityEntry
  isSuspicious : Bool
  isHighlySuspicious : Bool
deriving Repr, DecidableEq

/-- The analyzer `analyzeFingerprintSimilarity(fingerprintData1, fingerprintData2)`:
weighted multi-feature comparison.  `totalWeight` is the sum over the
whole table (34), whether or not a feature is present.  The floating
scores and thresholds of the source are modelled by exact rationals; no
attainable score `m/34` (m = 0..34) lies close enough to 0.4, 0.5 or 0.7
for IEEE rounding to decide differently. -/
def analyzeFingerprintSimilarity (data1 data2 : Bundle) : SimilarityResult :=
  let similarities := keyFeatures.filterMap (compareFeature data1 data2)
  let matchCount : Nat := (similarities.filter (·.matched)).foldl (fun acc e => acc + e.weight) 0
  let totalWeight : Nat := keyFeatures.foldl (fun acc f => acc + f.weight) 0
  let similarityScore : ℚ := mkRat matchCount totalWeight
  { similarityScore := similarityScore
    matchCount := matchCount
    totalWeight := totalWeight
    similarities := similarities
    isSuspicious := decide (similarityScore ≥ mkRat 4 10)
    isHighlySuspicious := decide (similarityScore ≥ mkRat 5 10) }

/-! The hasher `generateFingerprintHash`. -/

/-- Extraction `fingerprintData.key || default`: the value, with a falsy or
absent value replaced by the listed default. -/
def extractFeature (data : Bundle) (key : String) (dflt : JsVal) : JsVal :=
  match lookupField data key with
  | some v => if v.truthy then v else dflt
  | none => dflt

/-- The fixed `keyFeatures` extraction table of `generateFingerprintHash`:
the selected keys with their `||` defaults, listed here already in the
alphabetical (code-unit) order that `JSON.stringify(keyFeatures,
Object.keys(keyFeatures).sort())` serializes them in. -/
def hashKeyDefaults : List (String × JsVal) :=
  [ ("audioFingerprint", .str ""),
    ("canvasFingerprint", .str ""),
    ("colorDepth", .str ""),
    ("cookieEnabled", .bool false),
    ("deviceMemory", .str ""),
    ("doNotTrack", .str ""),
    ("fonts", .list []),
    ("hardwareConcurrency", .str ""),
    ("language", .str ""),
    ("localStorage", .bool false),
    ("pixelRatio", .str ""),
    ("platform", .str ""),
    ("plugins", .list []),
    ("screenResolution", .str ""),
    ("sessionStorage", .bool false),
    ("timezone", .str ""),
    ("timezoneOffset", .str ""),
    ("touchSupport", .bool false),
    ("userAgent", .str ""),
    ("webglFingerprint", .str ""),
    ("webglRenderer", .str ""),
    ("webglVendor", .str "") ]

/-- The canonical serialization `JSON.stringify(keyFeatures,
Object.keys(keyFeatures).sort())` that `generateFingerprintHash` feeds to
SHA-256. -/
def canonicalFingerprintString (data : Bundle) : String :=
  JsVal.stringify (.obj (hashKeyDefaults.map (fun kd => (kd.1, extractFeature data kd.1 kd.2))))

/-- The digest `generateFingerprintHash(fingerprintData)` =
`sha256hex(canonical serialization)`.  The SHA-256 primitive is out of the
core's scope (spec §1); it enters the embedding as the function parameter
`hashFn`, so every statement below holds for the real hash. -/
def generateFingerprintHash (hashFn : String → String) (data : Bundle) : String :=
  hashFn (canonicalFingerprintString data)

/-! The fingerprint record store (nedb `fingerprints.db`). -/

/-- One persisted fingerprint document.  `lastIP`/`updatedAt` exist only
after an `updateFingerprintRecord`, hence the `Option`. -/
structure FingerprintRecord where
  username : String
  fingerprintHash : String
  fingerprintData : Bundle
  ip : String
  createdAt : Nat
  lastUsed : Nat
  lastIP : Option String := none
  updatedAt : Option Nat := none
deriving Repr

/-- The datastore: the document list in insertion order, plus a `broken`
flag modelling storage unavailability (every nedb callback then reports an
error). -/
structure FpDB where
  records : List FingerprintRecord
  broken : Bool := false
deriving Repr

/-- nedb callback errors, as the `Except` error channel. -/
abbrev DBErr := Unit

def FpDB.guard (db : FpDB) {α : Type} (x : α) : Except DBErr α :=
  if db.broken then .error () else .ok x

/-- Query `findOne({fingerprintHash})`. -/
def checkFingerprintExists (db : FpDB) (fingerprintHash : String) : Except DBErr (Option FingerprintRecord) :=
  db.guard (db.records.find? (·.fingerprintHash == fingerprintHash))

/-- Query `findOne({ip})`. -/
def checkIPExists (db : FpDB) (ip : String) : Except DBErr (Option FingerprintRecord) :=
  db.guard (db.records.find? (·.ip == ip))

/-- Query `findOne({username})`. -/
def getUserFingerprintRecord (db : FpDB) (username : String) : Except DBErr (Option FingerprintRecord) :=
  db.guard (db.records.find? (·.username == username))

/-- An `insert` of a fresh record (`createdAt`/`lastUsed` = now). -/
def saveFingerprintRecord (now : Nat) (db : FpDB) (username fingerprintHash : String)
    (fingerprintData : Bundle) (ip : String) : Except DBErr FpDB :=
  db.guard { db with records := db.records ++
    [{ username := username, fingerprintHash := fingerprintHash,
       fingerprintData := fingerprintData, ip := ip,
       createdAt := now, lastUsed := now }] }

/-- Replace the first list element satisfying `p` by its `f`-image
(nedb `update` with default `multi:false` touches one document). -/
def updateFirst {α : Type} (p : α → Bool) (f : α → α) : List α → List α
  | [] => []
  | x :: xs => if p x then f x :: xs else x :: updateFirst p f xs

/-- The op `updateLastUsed(fingerprintHash)`: `update({fingerprintHash},
{$set:{lastUsed: now}})`.  NOTE the call site in `validateLogin` passes
`(username, ip)`; the extra `ip` argument is silently dropped by
JavaScript, so the filter value is whatever string the caller put first. -/
def updateLastUsed (now : Nat) (db : FpDB) (fingerprintHash : String) : Except DBErr FpDB :=
  let records := updateFirst (·.fingerprintHash == fingerprintHash)
    (fun r => { r with lastUsed := now }) db.records
  db.guard { db with records := records }

/-- The op `updateFingerprintRecord(username, fingerprintHash, fingerprintData,
ip)`: `update({username}, {$set:{fingerprintHash, fingerprintData,
lastUsed, lastIP, updatedAt}})`. -/
def updateFingerprintRecord (now : Nat) (db : FpDB) (username fingerprintHash : String)
    (fingerprintData : Bundle) (ip : String) : Except DBErr FpDB :=
  let records := updateFirst (·.username == username)
    (fun r => { r with fingerprintHash := fingerprintHash, fingerprintData := fingerprintData,
                       lastUsed := now, lastIP := some ip, updatedAt := some now }) db.records
  db.guard { db with records := records }

/-- The `find(query).forEach` scan of `checkSimilarDevices`: keep the
best-scoring record whose analysis is suspicious and strictly beats the
running best (initially 0). -/
def bestSimilarScan (data : Bundle) (docs : List FingerprintRecord) :
    Option (FingerprintRecord × SimilarityResult) :=
  docs.foldl (fun best rec =>
    let analysis := analyzeFingerprintSimilarity data rec.fingerprintData
    let highest : ℚ := match best with | none => 0 | some (_, a) => a.similarityScore
    if analysis.isSuspicious && decide (analysis.similarityScore > highest) then
      some (rec, analysis)
    else best) none

/-- The scan `checkSimilarDevices(fingerprintData, excludeUsername)`. -/
def checkSimilarDevices (db : FpDB) (data : Bundle) (excludeUsername : Option String) :
    Except DBErr (Option (FingerprintRecord × SimilarityResult)) :=
  let docs := match excludeUsername with
    | none => db.records
    | some u => db.records.filter (·.username != u)
  db.guard (bestSimilarScan data docs)

/-! The decision procedures. -/

/-- Projection of the JS result object onto the fields the specification
talks about. -/
structure ValidationResult where
  allowed : Bool
  reason : String
deriving Repr, DecidableEq

/-- The body of `validateRegistration` (the part inside `try`), returning
the result together with the datastore it leaves behind. -/
def validateRegistrationBody (now : Nat) (hashFn : String → String) (db : FpDB)
    (username : String) (fingerprintData : Bundle) (ip : String) (isAdmin : Bool) :
    Except DBErr (ValidationResult × FpDB) :=
  -- step 1 of the source: the private-mode test
  if truthyOpt (lookupField fingerprintData "isPrivateMode") then
    .ok (⟨false, "private_mode_detected"⟩, db)
  -- step 2: admin bypass
  else if isAdmin then
    .ok (⟨true, "admin_bypass"⟩, db)
  else
    -- step 3: `if (ip) { checkIPExists … }`
    match (if ip ≠ "" then checkIPExists db ip else .ok none) with
    | .error e => .error e
    | .ok ipRec =>
      if (match ipRec with
          | some r => r.username != username
          | none => false) then
        .ok (⟨false, "ip_already_used"⟩, db)
      else
        -- step 4: exact-digest collision (any owner, the source does not
        -- compare usernames here)
        match checkFingerprintExists db (generateFingerprintHash hashFn fingerprintData) with
        | .error e => .error e
        | .ok (some _) => .ok (⟨false, "device_already_used"⟩, db)
        | .ok none =>
          -- step 5: similarity sweep over all records
          match checkSimilarDevices db fingerprintData none with
          | .error e => .error e
          | .ok similarDevice =>
            if (match similarDevice with
                | some (_, analysis) => analysis.isHighlySuspicious
                | none => false) then
              .ok (⟨false, "similar_device_detected"⟩, db)
            else
              -- merely suspicious only logs a warning; step 6: persist
              match saveFingerprintRecord now db username
                  (generateFingerprintHash hashFn fingerprintData) fingerprintData ip with
              | .error e => .error e
              | .ok db1 => .ok (⟨true, "new_device"⟩, db1)

/-- Function `validateRegistration` with its `catch`: any thrown error becomes a
fail-closed `validation_error` denial, the store untouched. -/
def validateRegistration (now : Nat) (hashFn : String → String) (db : FpDB)
    (username : String) (fingerprintData : Bundle) (ip : String) (isAdmin : Bool) :
    ValidationResult × FpDB :=
  match validateRegistrationBody now hashFn db username fingerprintData ip isAdmin with
  | .ok r => r
  | .error _ => (⟨false, "validation_error"⟩, db)

/-- The body of `validateLogin` (the part inside `try`). -/
def validateLoginBody (now : Nat) (hashFn : String → String) (db : FpDB)
    (username : String) (fingerprintData : Bundle) (ip : String) (isAdmin : Bool) :
    Except DBErr (ValidationResult × FpDB) :=
  if truthyOpt (lookupField fingerprintData "isPrivateMode") then
    .ok (⟨false, "private_mode_detected"⟩, db)
  else if isAdmin then
    .ok (⟨true, "admin_bypass"⟩, db)
  else
    let fingerprintHash := generateFingerprintHash hashFn fingerprintData
    match getUserFingerprintRecord db username with
    | .error e => .error e
    | .ok none =>
      -- legacy path: no record for this username yet
      match checkFingerprintExists db fingerprintHash with
      | .error e => .error e
      | .ok existingRecord =>
        if (match existingRecord with
            | some r => r.username != username
            | none => false) then
          .ok (⟨false, "device_used_by_other"⟩, db)
        else
          match saveFingerprintRecord now db username fingerprintHash fingerprintData ip with
          | .error e => .error e
          | .ok db1 => .ok (⟨true, "legacy_user"⟩, db1)
    | .ok (some userRecord) =>
      if userRecord.fingerprintHash == fingerprintHash then
        -- exact match; the source calls `updateLastUsed(username, ip)`,
        -- passing the USERNAME where the fingerprint hash is expected
        -- (the ip argument is dropped)
        match updateLastUsed now db username with
        | .error e => .error e
        | .ok db1 => .ok (⟨true, "device_match"⟩, db1)
      else
        let similarity := analyzeFingerprintSimilarity fingerprintData userRecord.fingerprintData
        if similarity.similarityScore ≥ mkRat 7 10 then
          match updateFingerprintRecord now db username fingerprintHash fingerprintData ip with
          | .error e => .error e
          | .ok db1 => .ok (⟨true, "similar_device_accepted"⟩, db1)
        else if similarity.isSuspicious then
          .ok (⟨false, "device_partially_similar"⟩, db)
        else
          .ok (⟨false, "device_mismatch"⟩, db)

/-- Function `validateLogin` with its `catch`: any thrown error becomes a
fail-open `validation_error` ALLOW, the store untouched. -/
def validateLogin (now : Nat) (hashFn : String → String) (db : FpDB)
    (username : String) (fingerprintData : Bundle) (ip : String) (isAdmin : Bool) :
    ValidationResult × FpDB :=
  match validateLoginBody now hashFn db username fingerprintData ip isAdmin with
  | .ok r => r
  | .error _ => (⟨true, "validation_error"⟩, db)

/-! Session manager (src/server/io.js): live presence and admission. -/

/-- A live authenticated connection: `socket.user` once `loginSuccess` has
run.  `sid` is `socket.id`; the source also stores it as `user.roomId`, so
a session's room is its `sid`. -/
structure Session where
  sid : String
  name : String
  isAdmin : Bool
deriving Repr, DecidableEq

/-- Predicate `isHaveName(name)`: scan the live sockets for a user with that name. -/
def isHaveName (sessions : List Session) (name : String) : Bool :=
  sessions.any (·.name == name)

/-- Number of live sessions carrying a given username. -/
def countByName (sessions : List Session) (name : String) : Nat :=
  (sessions.filter (·.name == name)).length

/-- Connection-layer events feeding `util.login` / `disconnect`.  For a
`fresh` login the environment outcomes that `util.login` awaits are event
data: `credsValid` is `store.verifyUserLogin(...).isValid`, `userExists`
is `store.getUserByName(name) !== null`, `fpAllowed` is the
fingerprint-manager verdict, `isAdmin` the role the credential store
reports.  `reconnect` is `util.login(user, socket, true)`: a connection
arriving with a token that decodes. -/
inductive SrvEvent where
  | fresh (sid name : String) (credsValid userExists fpAllowed isAdmin : Bool)
  | reconnect (sid name : String) (isAdmin : Bool)
  | disconnectSock (sid : String)
deriving Repr, DecidableEq

/-- One step of the presence directory under a connection event,
mirroring the branch structure of `util.login`: the reconnect branch
calls `loginSuccess` immediately, with no `isHaveName` check; both fresh
branches (existing-user login and new-user registration) check
`isHaveName` before admitting. -/
def srvStep (sessions : List Session) : SrvEvent → List Session
  | .reconnect sid name isAdmin => ⟨sid, name, isAdmin⟩ :: sessions
  | .fresh sid name credsValid userExists fpAllowed isAdmin =>
    if credsValid then
      -- existing account: reject if online, then fingerprint gate
      if isHaveName sessions name then sessions
      else if fpAllowed then ⟨sid, name, isAdmin⟩ :: sessions else sessions
    else if userExists then
      -- account exists but the password was wrong: loginFail
      sessions
    else
      -- registration path: reject if online, then fingerprint gate
      if isHaveName sessions name then sessions
      else if fpAllowed then ⟨sid, name, false⟩ :: sessions else sessions
  | .disconnectSock sid => sessions.filter (·.sid != sid)

/-- A run of the session manager from a starting directory. -/
def srvRun (sessions : List Session) (events : List SrvEvent) : List Session :=
  events.foldl srvStep sessions

/-! Message routing (the `message` handler installed by `loginSuccess`). -/

/-- The sender-supplied `to` descriptor of a `message` event — attacker
controlled, the server never cross-checks it. -/
structure TargetDesc where
  type : String
  isAdmin : Bool
  roomId : String
deriving Repr, DecidableEq

/-- Outcome of one `message` event: delivery to a room plus persistence
via `store.saveMessage`, an error emitted back to the sender, or silence
(non-`user` target types are ignored). -/
inductive MsgOutcome where
  | deliveredPersisted (roomId : String)
  | errorToSender
  | noop
deriving Repr, DecidableEq

set_option linter.unusedVariables false in
/-- The `message` handler: `presence` is the live directory the handler
could consult (`io.fetchSockets()` is in scope) but never does — the only
inputs it reads are `socket.user.isAdmin` (the sender's stored flag) and
the sender-supplied `to.type` / `to.isAdmin` / `to.roomId`. -/
def handleMessage (presence : List Session) (senderIsAdmin : Bool) (target : TargetDesc) : MsgOutcome :=
  if target.type == "user" then
    if !senderIsAdmin && !target.isAdmin then .errorToSender
    else .deliveredPersisted target.roomId
  else .noop

/-! Concurrent registration (claim C10): `validateRegistration` split at
its `await` suspension points into a read-only check phase and a write
phase, so that interleavings of two in-flight registrations can be
stated. -/

/-- Outcome of the read-only prefix of `validateRegistration` (everything
before `saveFingerprintRecord`): either an early result, or the decision
to commit a new record and answer `new_device`. -/
inductive RegPhase where
  | early (r : ValidationResult)
  | commit
deriving Repr, DecidableEq

/-- The read-only check phase of `validateRegistration`, evaluated
against the store snapshot the checks actually read. -/
def regCheckPhase (hashFn : String → String) (db : FpDB) (username : String)
    (fingerprintData : Bundle) (ip : String) (isAdmin : Bool) : RegPhase :=
  if truthyOpt (lookupField fingerprintData "isPrivateMode") then
    .early ⟨false, "private_mode_detected"⟩
  else if isAdmin then
    .early ⟨true, "admin_bypass"⟩
  else
    let ipRec := if ip ≠ "" then db.records.find? (·.ip == ip) else none
    if (match ipRec with
        | some r => r.username != username
        | none => false) then
      .early ⟨false, "ip_already_used"⟩
    else
      match db.records.find? (·.fingerprintHash == generateFingerprintHash hashFn fingerprintData) with
      | some _ => .early ⟨false, "device_already_used"⟩
      | none =>
        if (match bestSimilarScan fingerprintData db.records with
            | some (_, analysis) => analysis.isHighlySuspicious
            | none => false) then
          .early ⟨false, "similar_device_detected"⟩
        else .commit

/-- The result a registration thread reports, given its check-phase
outcome. -/
def regThreadResult : RegPhase → ValidationResult
  | .early r => r
  | .commit => ⟨true, "new_device"⟩

/-- The write phase: the `saveFingerprintRecord` insert. -/
def regCommitDB (now : Nat) (hashFn : String → String) (db : FpDB) (username : String)
    (fingerprintData : Bundle) (ip : String) : FpDB :=
  { db with records := db.records ++
    [{ username := username, fingerprintHash := generateFingerprintHash hashFn fingerprintData,
       fingerprintData := fingerprintData, ip := ip, createdAt := now, lastUsed := now }] }

/-- Two in-flight registrations under the interleaving
check₁ · check₂ · write₁ · write₂: every read of both threads happens
before either write, so each check phase sees the initial snapshot
`db0`; the writes then land in order. -/
def overlappedRegistrations (now : Nat) (hashFn : String → String) (db0 : FpDB)
    (u1 : String) (b1 : Bundle) (ip1 : String) (u2 : String) (b2 : Bundle) (ip2 : String) :
    ValidationResult × ValidationResult × FpDB :=
  let o1 := regCheckPhase hashFn db0 u1 b1 ip1 false
  let o2 := regCheckPhase hashFn db0 u2 b2 ip2 false
  let db1 := match o1 with
    | .commit => regCommitDB now hashFn db0 u1 b1 ip1
    | .early _ => db0
  let db2 := match o2 with
    | .commit => regCommitDB now hashFn db1 u2 b2 ip2
    | .early _ => db1
  (regThreadResult o1, regThreadResult o2, db2)

/-- The fully serialized schedule: the second registration starts only
after the first has completed. -/
def serializedRegistrations (now : Nat) (hashFn : String → String) (db0 : FpDB)
    (u1 : String) (b1 : Bundle) (ip1 : String) (u2 : String) (b2 : Bundle) (ip2 : String) :
    ValidationResult × ValidationResult × FpDB :=
  let (r1, db1) := validateRegistration now hashFn db0 u1 b1 ip1 false
  let (r2, db2) := validateRegistration now hashFn db1 u2 b2 ip2 false
  (r1, r2, db2)

/-! Concrete fixtures used by witness theorems. -/

/-- A bundle carrying every comparable feature of the weight table, with
a configurable `userAgent`. -/
def fullFeatureBundle (ua : String) : Bundle :=
  [("userAgent", .str ua), ("screenResolution", .str "1920x1080"),
   ("timezone", .str "Asia/Shanghai"), ("hardwareConcurrency", .num 8),
   ("deviceMemory", .num 8), ("canvasFingerprint", .str "cfp"),
   ("webglVendor", .str "wv"), ("webglRenderer", .str "wr"),
   ("audioFingerprint", .str "afp"), ("fonts", .list ["arial"]),
   ("fingerprintjs", .obj [("visitorId", .str "vid")])]

/-- A stored record for `"alice"` bound to the `ua-old` variant of the
full bundle, under a digest that no other bundle hashes to. -/
def aliceOldRecord : FingerprintRecord :=
  { username := "alice", fingerprintHash := "oldhash",
    fingerprintData := fullFeatureBundle "ua-old", ip := "1.2.3.4",
    createdAt := 100, lastUsed := 100 }

/-- A working store holding exactly alice's record. -/
def aliceDB : FpDB := ⟨[aliceOldRecord], false⟩

/-- A minimal one-feature bundle. -/
def simpleBundle : Bundle := [("userAgent", .str "ua")]

/-- A stored record for `"alice"` whose digest IS the digest of
`simpleBundle` (under the identity standing in for SHA-256). -/
def aliceExactRecord : FingerprintRecord :=
  { username := "alice", fingerprintHash := canonicalFingerprintString simpleBundle,
    fingerprintData := simpleBundle, ip := "1.2.3.4",
    createdAt := 100, lastUsed := 100 }

/-- A working store holding exactly the exact-match record. -/
def aliceExactDB : FpDB := ⟨[aliceExactRecord], false⟩

/-! General helper lemmas. -/

theorem beqSymm {α : Type} [DecidableEq α] (a b : α) :
    ((a == b : Bool)) = ((b == a : Bool)) := by
  by_cases h : a = b
  · subst h; rfl
  · simp [beq_eq_false_iff_ne.mpr h, beq_eq_false_iff_ne.mpr (Ne.symm h)]

theorem filterMap_congr_mem {α β : Type} (f g : α → Option β) (l : List α)
    (h : ∀ x ∈ l, f x = g x) : l.filterMap f = l.filterMap g := by
  induction l with
  | nil => rfl
  | cons x xs ih =>
    simp only [List.filterMap_cons, h x (List.mem_cons_self x xs)]
    cases g x <;> simp [ih (fun y hy => h y (List.mem_cons_of_mem x hy))]

theorem filterMap_eq_map_of_mem {α β : Type} (f : α → Option β) (g : α → β) (l : List α)
    (h : ∀ x ∈ l, f x = some (g x)) : l.filterMap f = l.map g := by
  induction l with
  | nil => rfl
  | cons x xs ih =>
    simp only [List.filterMap_cons, h x (List.mem_cons_self x xs), List.map_cons]
    simp [ih (fun y hy => h y (List.mem_cons_of_mem x hy))]

theorem find?_updateFirst {α : Type} (p : α → Bool) (f : α → α) (l : List α) (r : α)
    (hfind : l.find? p = some r) (hpf : p (f r) = true) :
    (updateFirst p f l).find? p = some (f r) := by
  induction l with
  | nil => simp at hfind
  | cons x xs ih =>
    by_cases hx : p x = true
    · rw [List.find?_cons_of_pos _ hx] at hfind
      injection hfind with hxr
      subst hxr
      simp [updateFirst, hx, List.find?_cons_of_pos _ hpf]
    · have hx' : p x = false := by simpa using hx
      rw [List.find?_cons_of_neg _ (by simp [hx'])] at hfind
      simp [updateFirst, hx', List.find?_cons_of_neg, ih hfind]

/-! Per-feature facts about the similarity algorithm. -/

theorem featureValueMatches_self (path : String) (v : JsVal) :
    featureValueMatches path v v = true := by
  unfold featureValueMatches
  by_cases hp : (path == "fonts") = true
  · simp only [hp, if_true]
    have hf : (asStringList v).filter (fun f => (asStringList v).contains f) = asStringList v := by
      apply List.filter_eq_self.mpr
      intro a ha
      exact List.elem_eq_true_of_mem ha
    simp only [hf, Nat.min_self, ge_iff_le, decide_eq_true_eq]
    omega
  · simp only [Bool.not_eq_true] at hp
    simp only [hp, Bool.false_eq_true, if_false]
    cases v <;> simp

theorem compareFeature_self (A : Bundle) (f : Feature)
    (h : truthyOpt (getNestedValue A f.path) = true) :
    compareFeature A A f = some ⟨f.name, f.weight, true⟩ := by
  unfold compareFeature
  cases hv : getNestedValue A f.path with
  | none => rw [hv] at h; simp [truthyOpt] at h
  | some v =>
    rw [hv] at h
    simp only [truthyOpt] at h
    simp [h, featureValueMatches_self]

/-- C1 (amended): reflexive similarity scores a full 1.0 exactly when
every comparable feature of the table is present (truthy) in the bundle;
with the whole table present, each feature matches itself and the matched
weight equals the total weight 34. -/
theorem c1_self_similarity_all_features_present (A : Bundle)
    (h : ∀ f ∈ keyFeatures, truthyOpt (getNestedValue A f.path) = true) :
    (analyzeFingerprintSimilarity A A).similarityScore = 1 := by
  have hsim : keyFeatures.filterMap (compareFeature A A) =
      keyFeatures.map (fun f => ⟨f.name, f.weight, true⟩) :=
    filterMap_eq_map_of_mem _ _ _ (fun f hf => compareFeature_self A f (h f hf))
  simp only [analyzeFingerprintSimilarity]
  rw [hsim]
  decide

/-- C1 witness: a bundle carrying all eleven comparable features
self-scores exactly 1. -/
theorem c1_self_similarity_witness :
    (analyzeFingerprintSimilarity
      [("userAgent", .str "ua"), ("screenResolution", .str "1920x1080"),
       ("timezone", .str "Asia/Shanghai"), ("hardwareConcurrency", .num 8),
       ("deviceMemory", .num 8), ("canvasFingerprint", .str "cfp"),
       ("webglVendor", .str "wv"), ("webglRenderer", .str "wr"),
       ("audioFingerprint", .str "afp"), ("fonts", .list ["arial"]),
       ("fingerprintjs", .obj [("visitorId", .str "vid")])]
      [("userAgent", .str "ua"), ("screenResolution", .str "1920x1080"),
       ("timezone", .str "Asia/Shanghai"), ("hardwareConcurrency", .num 8),
       ("deviceMemory", .num 8), ("canvasFingerprint", .str "cfp"),
       ("webglVendor", .str "wv"), ("webglRenderer", .str "wr"),
       ("audioFingerprint", .str "afp"), ("fonts", .list ["arial"]),
       ("fingerprintjs", .obj [("visitorId", .str "vid")])]).similarityScore = 1 :=
  c1_self_similarity_all_features_present _ (by decide)

/-- C1 counterexample: a bundle carrying only a `userAgent` self-scores
2/34, not 1.0 — a feature absent from the bundle is skipped in the match
list but its weight stays in the fixed denominator 34, so absence does
hurt the score. -/
theorem c1_counterexample :
    (analyzeFingerprintSimilarity [("userAgent", .str "x")]
      [("userAgent", .str "x")]).similarityScore ≠ 1 := by decide

/-! Symmetry of the similarity analysis. -/

theorem length_filter_contains_comm (l1 l2 : List String)
    (h1 : l1.Nodup) (h2 : l2.Nodup) :
    (l1.filter (fun f => l2.contains f)).length =
    (l2.filter (fun f => l1.contains f)).length := by
  have k1 := (List.toFinset_card_of_nodup (h1.filter (fun f => l2.contains f))).symm
  have k2 := (List.toFinset_card_of_nodup (h2.filter (fun f => l1.contains f))).symm
  rw [k1, k2, List.toFinset_filter, List.toFinset_filter]
  have e1 : l1.toFinset.filter (fun a => (l2.contains a : Bool)) = l1.toFinset ∩ l2.toFinset := by
    ext a
    simp [Finset.mem_filter, Finset.mem_inter, List.mem_toFinset, List.elem_iff]
  have e2 : l2.toFinset.filter (fun a => (l1.contains a : Bool)) = l2.toFinset ∩ l1.toFinset := by
    ext a
    simp [Finset.mem_filter, Finset.mem_inter, List.mem_toFinset, List.elem_iff]
  rw [e1, e2, Finset.inter_comm]

theorem featureValueMatches_symm (path : String) (v1 v2 : JsVal)
    (hf : path = "fonts" → (asStringList v1).Nodup ∧ (asStringList v2).Nodup) :
    featureValueMatches path v1 v2 = featureValueMatches path v2 v1 := by
  unfold featureValueMatches
  by_cases hp : (path == "fonts") = true
  · have hpath : path = "fonts" := by simpa using hp
    obtain ⟨h1, h2⟩ := hf hpath
    simp only [hp, if_true]
    rw [length_filter_contains_comm _ _ h1 h2, Nat.min_comm]
  · simp only [Bool.not_eq_true] at hp
    simp only [hp, Bool.false_eq_true, if_false]
    cases v1 <;> cases v2 <;> exact beqSymm _ _

/-- The `fonts` value of a bundle as the array the comparison uses
(`[]` when absent or not an array). -/
def fontsList (X : Bundle) : List String :=
  match getNestedValue X "fonts" with
  | some v => asStringList v
  | none => []

theorem compareFeature_symm (A B : Bundle) (f : Feature)
    (hA : (fontsList A).Nodup) (hB : (fontsList B).Nodup) :
    compareFeature A B f = compareFeature B A f := by
  unfold compareFeature
  cases hv1 : getNestedValue A f.path with
  | none => cases getNestedValue B f.path <;> rfl
  | some v1 =>
    cases hv2 : getNestedValue B f.path with
    | none => rfl
    | some v2 =>
      show (if (v1.truthy && v2.truthy) = true then
              some (SimilarityEntry.mk f.name f.weight (featureValueMatches f.path v1 v2))
            else none) =
           (if (v2.truthy && v1.truthy) = true then
              some (SimilarityEntry.mk f.name f.weight (featureValueMatches f.path v2 v1))
            else none)
      rw [Bool.and_comm]
      by_cases hguard : (v2.truthy && v1.truthy) = true
      · simp only [hguard, if_true]
        have hfm : featureValueMatches f.path v1 v2 = featureValueMatches f.path v2 v1 := by
          apply featureValueMatches_symm
          intro hpath
          rw [hpath] at hv1 hv2
          constructor
          · have : fontsList A = asStringList v1 := by unfold fontsList; rw [hv1]
            rw [← this]; exact hA
          · have : fontsList B = asStringList v2 := by unfold fontsList; rw [hv2]
            rw [← this]; exact hB
        rw [hfm]
      · simp only [Bool.not_eq_true] at hguard
        simp [hguard]

/-- C8 (amended): the similarity analysis is fully symmetric — same
score, per-feature match list and suspicion flags — whenever the two
bundles' font lists carry no duplicate entries.  (With duplicates the 80%
font-overlap test counts duplicated common fonts on one side only and
symmetry fails, see the counterexample.) -/
theorem c8_similarity_symm_of_fonts_nodup (A B : Bundle)
    (hA : (fontsList A).Nodup) (hB : (fontsList B).Nodup) :
    analyzeFingerprintSimilarity A B = analyzeFingerprintSimilarity B A := by
  have hsym : keyFeatures.filterMap (compareFeature A B) =
      keyFeatures.filterMap (compareFeature B A) :=
    filterMap_congr_mem _ _ _ (fun f _ => compareFeature_symm A B f hA hB)
  simp only [analyzeFingerprintSimilarity]
  rw [hsym]

/-- C8 witness: two concrete bundles with duplicate-free font lists get
the identical analysis in both argument orders. -/
theorem c8_similarity_symm_witness :
    (fontsList [("fonts", .list ["arial", "courier"]), ("userAgent", .str "u1")]).Nodup ∧
    (fontsList [("fonts", .list ["arial", "verdana"]), ("userAgent", .str "u2")]).Nodup ∧
    analyzeFingerprintSimilarity
      [("fonts", .list ["arial", "courier"]), ("userAgent", .str "u1")]
      [("fonts", .list ["arial", "verdana"]), ("userAgent", .str "u2")] =
    analyzeFingerprintSimilarity
      [("fonts", .list ["arial", "verdana"]), ("userAgent", .str "u2")]
      [("fonts", .list ["arial", "courier"]), ("userAgent", .str "u1")] :=
  ⟨by decide, by decide,
   c8_similarity_symm_of_fonts_nodup _ _ (by decide) (by decide)⟩

/-- C8 counterexample: with a duplicated font entry the two argument
orders disagree — `fonts ["a","a"]` against `fonts ["a","b"]` matches the
80% overlap test in one direction (2 of min 2·0.8) but not the other
(1 of min 2·0.8), so the results differ (scores 2/34 vs 0). -/
theorem c8_counterexample :
    analyzeFingerprintSimilarity [("fonts", .list ["a", "a"])] [("fonts", .list ["a", "b"])] ≠
    analyzeFingerprintSimilarity [("fonts", .list ["a", "b"])] [("fonts", .list ["a", "a"])] := by
  decide

/-! Digest determinism under key reordering. -/

theorem lookupField_perm (A B : Bundle) (hperm : A.Perm B)
    (hnd : (A.map Prod.fst).Nodup) : ∀ k, lookupField A k = lookupField B k := by
  induction hperm with
  | nil => intro k; rfl
  | cons x p ih =>
    intro k
    obtain ⟨kx, vx⟩ := x
    simp only [List.map_cons, List.nodup_cons] at hnd
    simp only [lookupField]
    by_cases hk : (kx == k) = true
    · simp [hk]
    · simp only [Bool.not_eq_true] at hk
      simp [hk, ih hnd.2 k]
  | swap x y l =>
    intro k
    obtain ⟨kx, vx⟩ := x
    obtain ⟨ky, vy⟩ := y
    simp only [List.map_cons, List.nodup_cons, List.mem_cons] at hnd
    have hne : ky ≠ kx := fun h => hnd.1 (Or.inl h)
    simp only [lookupField]
    by_cases hky : (ky == k) = true
    · have : ky = k := by simpa using hky
      subst this
      have : (kx == ky) = false := beq_eq_false_iff_ne.mpr (fun h => hne h.symm)
      simp [hky, this]
    · simp only [Bool.not_eq_true] at hky
      simp [hky]
  | trans p1 p2 ih1 ih2 =>
    intro k
    have hnd2 := (p1.map Prod.fst).nodup hnd
    rw [ih1 hnd k, ih2 hnd2 k]

/-- C9: the fingerprint digest is invariant under reordering of the
input mapping's insertion order — for any hash primitive, any bundle
with duplicate-free keys, and any permutation of its entries, the
canonicalized serialization and hence the digest coincide. -/
theorem c9_digest_insertion_order_invariant (hashFn : String → String) (A B : Bundle)
    (hnd : (A.map Prod.fst).Nodup) (hperm : A.Perm B) :
    generateFingerprintHash hashFn A = generateFingerprintHash hashFn B := by
  have hlook := lookupField_perm A B hperm hnd
  unfold generateFingerprintHash canonicalFingerprintString
  have hmap : hashKeyDefaults.map (fun kd => (kd.1, extractFeature A kd.1 kd.2)) =
      hashKeyDefaults.map (fun kd => (kd.1, extractFeature B kd.1 kd.2)) := by
    apply List.map_congr_left
    intro kd _
    unfold extractFeature
    rw [hlook kd.1]
  rw [hmap]

/-- C9 witness: shuffling a concrete two-key bundle leaves the digest
unchanged (instantiated at the identity in place of the external SHA-256
primitive). -/
theorem c9_digest_witness :
    ((([("userAgent", JsVal.str "ua"), ("timezone", JsVal.str "tz")] : Bundle).map Prod.fst).Nodup) ∧
    (([("userAgent", JsVal.str "ua"), ("timezone", JsVal.str "tz")] : Bundle).Perm
      [("timezone", JsVal.str "tz"), ("userAgent", JsVal.str "ua")]) ∧
    generateFingerprintHash (fun s => s) [("userAgent", JsVal.str "ua"), ("timezone", JsVal.str "tz")] =
    generateFingerprintHash (fun s => s) [("timezone", JsVal.str "tz"), ("userAgent", JsVal.str "ua")] :=
  ⟨by decide, List.Perm.swap _ _ _,
   c9_digest_insertion_order_invariant (fun s => s) _ _ (by decide) (List.Perm.swap _ _ _)⟩

/-! Admin bypass ordering. -/

/-- C2 (amended): for bundles NOT carrying a truthy private-mode flag,
`isAdmin` short-circuits both decision procedures to an allow with reason
`admin_bypass`, and the store is returned untouched.  The admin check is
step 2, not step 1: the private-mode test runs first in both procedures. -/
theorem c2_admin_bypass_of_not_private (now : Nat) (hashFn : String → String)
    (db : FpDB) (username : String) (bundle : Bundle) (ip : String)
    (hpriv : truthyOpt (lookupField bundle "isPrivateMode") = false) :
    validateRegistration now hashFn db username bundle ip true = (⟨true, "admin_bypass"⟩, db) ∧
    validateLogin now hashFn db username bundle ip true = (⟨true, "admin_bypass"⟩, db) := by
  unfold validateRegistration validateRegistrationBody validateLogin validateLoginBody
  simp [hpriv]

/-- C2 witness: a concrete admin registration and login on a normal-mode
bundle both answer `admin_bypass` and leave the store unchanged. -/
theorem c2_admin_bypass_witness :
    truthyOpt (lookupField [("userAgent", JsVal.str "ua")] "isPrivateMode") = false ∧
    validateRegistration 5 (fun s => s) ⟨[], false⟩ "root"
      [("userAgent", JsVal.str "ua")] "1.2.3.4" true = (⟨true, "admin_bypass"⟩, ⟨[], false⟩) ∧
    validateLogin 5 (fun s => s) ⟨[], false⟩ "root"
      [("userAgent", JsVal.str "ua")] "1.2.3.4" true = (⟨true, "admin_bypass"⟩, ⟨[], false⟩) := by
  refine ⟨by decide, ?_, ?_⟩
  · exact (c2_admin_bypass_of_not_private 5 (fun s => s) ⟨[], false⟩ "root"
      [("userAgent", JsVal.str "ua")] "1.2.3.4" (by decide)).1
  · exact (c2_admin_bypass_of_not_private 5 (fun s => s) ⟨[], false⟩ "root"
      [("userAgent", JsVal.str "ua")] "1.2.3.4" (by decide)).2

/-- C2 counterexample: an admin presenting a private-mode bundle is
DENIED with `private_mode_detected` by both procedures — the private-mode
test precedes the admin check, so the claim's "holds for all bundles,
including bundles carrying the private-mode flag" is false. -/
theorem c2_counterexample :
    (validateRegistration 0 (fun s => s) ⟨[], false⟩ "root"
      [("isPrivateMode", JsVal.bool true)] "1.2.3.4" true).1 = ⟨false, "private_mode_detected"⟩ ∧
    (validateLogin 0 (fun s => s) ⟨[], false⟩ "root"
      [("isPrivateMode", JsVal.bool true)] "1.2.3.4" true).1 = ⟨false, "private_mode_detected"⟩ ∧
    (validateRegistration 0 (fun s => s) ⟨[], false⟩ "root"
      [("isPrivateMode", JsVal.bool true)] "1.2.3.4" true).1 ≠ ⟨true, "admin_bypass"⟩ := by
  refine ⟨by decide, by decide, by decide⟩

/-! Failure policy of the two decision procedures. -/

/-- C4: when storage is unavailable (every nedb callback reports an
error) and the decision reaches the storage steps (non-admin, bundle not
in private mode), the login `catch` answers ALLOW with
`validation_error` (fail-open) while the registration `catch` answers
DENY with `validation_error` (fail-closed), both leaving the store
untouched — a failed check or write never grants registration. -/
theorem c4_fail_open_login_fail_closed_registration (now : Nat)
    (hashFn : String → String) (db : FpDB) (username : String) (bundle : Bundle) (ip : String)
    (hbroken : db.broken = true)
    (hpriv : truthyOpt (lookupField bundle "isPrivateMode") = false) :
    validateLogin now hashFn db username bundle ip false = (⟨true, "validation_error"⟩, db) ∧
    validateRegistration now hashFn db username bundle ip false = (⟨false, "validation_error"⟩, db) := by
  constructor
  · unfold validateLogin validateLoginBody getUserFingerprintRecord FpDB.guard
    simp [hpriv, hbroken]
  · unfold validateRegistration validateRegistrationBody checkIPExists checkFingerprintExists FpDB.guard
    by_cases hip : ip = ""
    · simp [hpriv, hbroken, hip]
    · simp [hpriv, hbroken, hip]

/-- C4 witness: with a concrete broken store, a normal-mode non-admin
login is allowed with `validation_error` and the matching registration is
denied with `validation_error`. -/
theorem c4_failure_policy_witness :
    (FpDB.broken ⟨[], true⟩ = true) ∧
    validateLogin 7 (fun s => s) ⟨[], true⟩ "alice"
      [("userAgent", JsVal.str "ua")] "1.2.3.4" false = (⟨true, "validation_error"⟩, ⟨[], true⟩) ∧
    validateRegistration 7 (fun s => s) ⟨[], true⟩ "alice"
      [("userAgent", JsVal.str "ua")] "1.2.3.4" false = (⟨false, "validation_error"⟩, ⟨[], true⟩) := by
  refine ⟨rfl, ?_, ?_⟩
  · exact (c4_fail_open_login_fail_closed_registration 7 (fun s => s) ⟨[], true⟩ "alice"
      [("userAgent", JsVal.str "ua")] "1.2.3.4" rfl (by decide)).1
  · exact (c4_fail_open_login_fail_closed_registration 7 (fun s => s) ⟨[], true⟩ "alice"
      [("userAgent", JsVal.str "ua")] "1.2.3.4" rfl (by decide)).2

/-! Similar-device rebinding at login. -/

/-- C3: when a record exists for the username, the submitted bundle's
digest differs from the stored one, and the similarity score against the
stored bundle is at least 0.7, the login is allowed with reason
`similar_device_accepted` and the stored record is overwritten in place
with the new digest, bundle, `lastUsed = now` and `lastIP = ip` — so a
subsequent lookup for that username sees the newly stored bundle, not
the previous one. -/
theorem c3_similar_device_rebind (now : Nat) (hashFn : String → String) (db : FpDB)
    (username : String) (bundle : Bundle) (ip : String) (r : FingerprintRecord)
    (hbroken : db.broken = false)
    (hpriv : truthyOpt (lookupField bundle "isPrivateMode") = false)
    (hrec : db.records.find? (·.username == username) = some r)
    (hdiff : (r.fingerprintHash == generateFingerprintHash hashFn bundle) = false)
    (hscore : (analyzeFingerprintSimilarity bundle r.fingerprintData).similarityScore ≥ mkRat 7 10) :
    (validateLogin now hashFn db username bundle ip false).1 = ⟨true, "similar_device_accepted"⟩ ∧
    (validateLogin now hashFn db username bundle ip false).2.records.find? (·.username == username) =
      some { r with fingerprintHash := generateFingerprintHash hashFn bundle,
                    fingerprintData := bundle, lastUsed := now,
                    lastIP := some ip, updatedAt := some now } := by
  have hmain : validateLogin now hashFn db username bundle ip false =
      (⟨true, "similar_device_accepted"⟩,
       FpDB.mk
         (updateFirst (·.username == username)
           (fun x =>
             { x with fingerprintHash := generateFingerprintHash hashFn bundle,
                      fingerprintData := bundle, lastUsed := now,
                      lastIP := some ip, updatedAt := some now })
           db.records)
         db.broken) := by
    unfold validateLogin validateLoginBody getUserFingerprintRecord updateFingerprintRecord FpDB.guard
    simp only [hpriv, hbroken, hrec, hdiff, Bool.false_eq_true, if_false]
    rw [if_pos hscore]
  have hpr := List.find?_some hrec
  have hupd := find?_updateFirst (·.username == username)
    (fun x =>
      { x with fingerprintHash := generateFingerprintHash hashFn bundle,
               fingerprintData := bundle, lastUsed := now,
               lastIP := some ip, updatedAt := some now })
    db.records r hrec hpr
  rw [hmain]
  exact ⟨rfl, hupd⟩

/-- C3 witness: alice's stored `ua-old` bundle, presented as `ua-new`
(score 32/34 ≥ 0.7, digest different), logs in with
`similar_device_accepted` and the stored record is rebound to the new
bundle. -/
theorem c3_rebind_witness :
    aliceDB.broken = false ∧
    truthyOpt (lookupField (fullFeatureBundle "ua-new") "isPrivateMode") = false ∧
    aliceDB.records.find? (·.username == "alice") = some aliceOldRecord ∧
    (aliceOldRecord.fingerprintHash ==
      generateFingerprintHash (fun s => s) (fullFeatureBundle "ua-new")) = false ∧
    (analyzeFingerprintSimilarity (fullFeatureBundle "ua-new")
      aliceOldRecord.fingerprintData).similarityScore ≥ mkRat 7 10 ∧
    (validateLogin 200 (fun s => s) aliceDB "alice" (fullFeatureBundle "ua-new")
      "5.6.7.8" false).1 = ⟨true, "similar_device_accepted"⟩ ∧
    (validateLogin 200 (fun s => s) aliceDB "alice" (fullFeatureBundle "ua-new")
      "5.6.7.8" false).2.records.find? (·.username == "alice") =
      some { aliceOldRecord with
               fingerprintHash := generateFingerprintHash (fun s => s) (fullFeatureBundle "ua-new"),
               fingerprintData := fullFeatureBundle "ua-new", lastUsed := 200,
               lastIP := some "5.6.7.8", updatedAt := some 200 } := by
  refine ⟨rfl, by decide, rfl, by decide, by decide, ?_, ?_⟩
  · exact (c3_similar_device_rebind 200 (fun s => s) aliceDB "alice"
      (fullFeatureBundle "ua-new") "5.6.7.8" aliceOldRecord rfl (by decide) rfl
      (by decide) (by decide)).1
  · exact (c3_similar_device_rebind 200 (fun s => s) aliceDB "alice"
      (fullFeatureBundle "ua-new") "5.6.7.8" aliceOldRecord rfl (by decide) rfl
      (by decide) (by decide)).2

/-! Exact device match at login. -/

/-- C5 divergence witness: a login whose digest exactly matches alice's
stored record is allowed with `device_match`, but the store comes back
COMPLETELY UNCHANGED — `lastUsed` stays 100 (not the current time 999)
and no `lastIP` is ever written.  The source calls
`updateLastUsed(username, ip)`, but `updateLastUsed(fingerprintHash)`
filters on the `fingerprintHash` field and takes a single argument: the
username matches no record's digest and the ip is dropped. -/
theorem c5_device_match_updates_nothing :
    (validateLogin 999 (fun s => s) aliceExactDB "alice" simpleBundle "5.6.7.8" false).1 =
      ⟨true, "device_match"⟩ ∧
    (validateLogin 999 (fun s => s) aliceExactDB "alice" simpleBundle "5.6.7.8" false).2 =
      aliceExactDB := by
  set_option maxRecDepth 4000 in
  exact ⟨rfl, rfl⟩

/-! Presence uniqueness. -/

theorem countByName_zero_of_not_have (sessions : List Session) (name : String)
    (h : isHaveName sessions name = false) : countByName sessions name = 0 := by
  unfold isHaveName at h
  unfold countByName
  rw [List.length_eq_zero, List.filter_eq_nil_iff]
  intro a ha hpa
  have : sessions.any (·.name == name) = true := List.any_of_mem ha hpa
  rw [this] at h
  simp at h

theorem countByName_cons (x : Session) (s : List Session) (n : String) :
    countByName (x :: s) n = (if (x.name == n) = true then 1 else 0) + countByName s n := by
  unfold countByName
  rw [List.filter_cons]
  split <;> simp [Nat.add_comm]

theorem countByName_admit (sessions : List Session) (sid name : String) (isAdmin : Bool)
    (n : String) (h : countByName sessions n ≤ 1)
    (hguard : isHaveName sessions name = false) :
    countByName ((⟨sid, name, isAdmin⟩ : Session) :: sessions) n ≤ 1 := by
  rw [countByName_cons]
  by_cases hn : (name == n) = true
  · have heq : name = n := by simpa using hn
    subst heq
    rw [countByName_zero_of_not_have sessions name hguard]
    simp
  · simp only [Bool.not_eq_true] at hn
    simp [hn, h]

theorem countByName_filter_le (s : List Session) (q : Session → Bool) (n : String) :
    countByName (s.filter q) n ≤ countByName s n :=
  List.Sublist.length_le ((List.filter_sublist s).filter _)

/-- C6 (amended): the two fresh admission paths (existing-account login
and new-account registration) and disconnection preserve
at-most-one-session-per-username — both fresh paths admit only after
`isHaveName` reports the name offline.  (The reconnect path does not,
see the counterexample.) -/
theorem c6_fresh_admission_preserves_unique (sessions : List Session)
    (sid name : String) (credsValid userExists fpAllowed isAdmin : Bool) (n : String)
    (h : countByName sessions n ≤ 1) :
    countByName (srvStep sessions (.fresh sid name credsValid userExists fpAllowed isAdmin)) n ≤ 1 ∧
    countByName (srvStep sessions (.disconnectSock sid)) n ≤ 1 := by
  constructor
  · unfold srvStep
    by_cases hcv : credsValid = true
    · simp only [hcv, if_true]
      by_cases hh : isHaveName sessions name = true
      · simp [hh, h]
      · have hh' : isHaveName sessions name = false := by simpa using hh
        simp only [hh', Bool.false_eq_true, if_false]
        by_cases hfp : fpAllowed = true
        · simp only [hfp, if_true]
          exact countByName_admit sessions sid name isAdmin n h hh'
        · have hfp' : fpAllowed = false := by simpa using hfp
          simp [hfp', h]
    · have hcv' : credsValid = false := by simpa using hcv
      simp only [hcv', Bool.false_eq_true, if_false]
      by_cases hue : userExists = true
      · simp [hue, h]
      · have hue' : userExists = false := by simpa using hue
        simp only [hue', Bool.false_eq_true, if_false]
        by_cases hh : isHaveName sessions name = true
        · simp [hh, h]
        · have hh' : isHaveName sessions name = false := by simpa using hh
          simp only [hh', Bool.false_eq_true, if_false]
          by_cases hfp : fpAllowed = true
          · simp only [hfp, if_true]
            exact countByName_admit sessions sid name false n h hh'
          · have hfp' : fpAllowed = false := by simpa using hfp
            simp [hfp', h]
  · exact Nat.le_trans (countByName_filter_le sessions _ n) h

/-- C6 witness: one concrete fresh admission and one disconnect,
starting from a directory already holding one `"alice"` session, keep
the `"alice"` count at most 1. -/
theorem c6_fresh_admission_witness :
    countByName [⟨"s1", "alice", false⟩] "alice" ≤ 1 ∧
    countByName (srvStep [⟨"s1", "alice", false⟩]
      (.fresh "s2" "alice" true false true false)) "alice" ≤ 1 ∧
    countByName (srvStep [⟨"s1", "alice", false⟩]
      (.disconnectSock "s1")) "alice" ≤ 1 := by
  refine ⟨by decide, ?_, ?_⟩
  · exact (c6_fresh_admission_preserves_unique [⟨"s1", "alice", false⟩]
      "s2" "alice" true false true false "alice" (by decide)).1
  · exact (c6_fresh_admission_preserves_unique [⟨"s1", "alice", false⟩]
      "s1" "alice" true false true false "alice" (by decide)).2

/-- C6 counterexample: the reconnect path performs no `isHaveName`
check, so a registration of `"alice"` followed by a token reconnect for
`"alice"` yields TWO simultaneous live sessions with the same username —
the claimed invariant is reachable-state false. -/
theorem c6_counterexample :
    countByName (srvRun []
      [.fresh "s1" "alice" false false true false,
       .reconnect "s2" "alice" false]) "alice" = 2 := by decide

/-! Message routing and the target descriptor. -/

/-- C7: the private-message routing decision for a `user`-type target is
a function of the sender's stored admin flag and the sender-supplied
descriptor fields alone — it is invariant under arbitrary changes of the
live presence directory — and, in particular, a customer sender whose
payload marks the target as an administrator gets the message delivered
to the supplied `roomId` and persisted, whatever session actually
occupies that room. -/
theorem c7_target_role_never_consulted :
    (∀ (p1 p2 : List Session) (senderIsAdmin : Bool) (target : TargetDesc),
      handleMessage p1 senderIsAdmin target = handleMessage p2 senderIsAdmin target) ∧
    (∀ (p : List Session) (target : TargetDesc),
      target.type = "user" → target.isAdmin = true →
      handleMessage p false target = .deliveredPersisted target.roomId) := by
  constructor
  · intro p1 p2 senderIsAdmin target
    rfl
  · intro p target ht ha
    unfold handleMessage
    simp [ht, ha]

/-- C7 witness: room `"room9"` is occupied by the customer session
`"eve"`, yet a customer sender whose descriptor claims the target is an
administrator gets the message delivered there and persisted. -/
theorem c7_spoofed_target_witness :
    TargetDesc.type ⟨"user", true, "room9"⟩ = "user" ∧
    TargetDesc.isAdmin ⟨"user", true, "room9"⟩ = true ∧
    Session.isAdmin ⟨"room9", "eve", false⟩ = false ∧
    handleMessage [⟨"room9", "eve", false⟩] false ⟨"user", true, "room9"⟩ =
      .deliveredPersisted "room9" :=
  ⟨rfl, rfl, rfl,
   c7_target_role_never_consulted.2 [⟨"room9", "eve", false⟩] ⟨"user", true, "room9"⟩ rfl rfl⟩

/-! The registration write race. -/

/-- C10 divergence witness: two registrations with byte-identical
bundles for distinct usernames from distinct IPs on an empty store.
Under the overlapped interleaving (both check phases before either
write) BOTH come back allowed with `new_device` and the store ends up
with two records carrying the same digest; only the fully serialized
schedule produces the claimed `new_device` / `device_already_used`
pair.  Nothing in the code serializes the check-then-write sequence —
each `await` between `findOne` and `insert` is a suspension point. -/
theorem c10_overlapped_both_succeed :
    (overlappedRegistrations 10 (fun s => s) ⟨[], false⟩
      "alice" simpleBundle "1.1.1.1" "bob" simpleBundle "2.2.2.2").1 = ⟨true, "new_device"⟩ ∧
    (overlappedRegistrations 10 (fun s => s) ⟨[], false⟩
      "alice" simpleBundle "1.1.1.1" "bob" simpleBundle "2.2.2.2").2.1 = ⟨true, "new_device"⟩ ∧
    ((overlappedRegistrations 10 (fun s => s) ⟨[], false⟩
      "alice" simpleBundle "1.1.1.1" "bob" simpleBundle "2.2.2.2").2.2.records.filter
        (·.fingerprintHash == generateFingerprintHash (fun s => s) simpleBundle)).length = 2 ∧
    (serializedRegistrations 10 (fun s => s) ⟨[], false⟩
      "alice" simpleBundle "1.1.1.1" "bob" simpleBundle "2.2.2.2").1 = ⟨true, "new_device"⟩ ∧
    (serializedRegistrations 10 (fun s => s) ⟨[], false⟩
      "alice" simpleBundle "1.1.1.1" "bob" simpleBundle "2.2.2.2").2.1 = ⟨false, "device_already_used"⟩ := by
  set_option maxRecDepth 8000 in
  exact ⟨by decide, by decide, by decide, by decide, by decide⟩

/-- Faithfulness of the race decomposition: on a working store, a full
`validateRegistration` run IS its check phase followed (on commit) by
its write phase — so `overlappedRegistrations` and
`serializedRegistrations` really are schedules of the source's steps. -/
theorem validateRegistration_decomposes (now : Nat) (hashFn : String → String) (db : FpDB)
    (username : String) (bundle : Bundle) (ip : String) (isAdmin : Bool)
    (hbroken : db.broken = false) :
    validateRegistration now hashFn db username bundle ip isAdmin =
      (regThreadResult (regCheckPhase hashFn db username bundle ip isAdmin),
       match regCheckPhase hashFn db username bundle ip isAdmin with
       | .commit => regCommitDB now hashFn db username bundle ip
       | .early _ => db) := by
  unfold validateRegistration validateRegistrationBody regCheckPhase regThreadResult regCommitDB
  unfold checkIPExists checkFingerprintExists checkSimilarDevices saveFingerprintRecord FpDB.guard
  simp only [hbroken, Bool.false_eq_true, if_false]
  by_cases h1 : truthyOpt (lookupField bundle "isPrivateMode") = true
  · simp [h1]
  · have h1' : truthyOpt (lookupField bundle "isPrivateMode") = false := by simpa using h1
    simp only [h1', Bool.false_eq_true, if_false]
    by_cases h2 : isAdmin = true
    · simp [h2]
    · have h2' : isAdmin = false := by simpa using h2
      simp only [h2', Bool.false_eq_true, if_false]
      rw [← apply_ite (Except.ok (ε := DBErr))]
      by_cases hip : ip = ""
      · simp only [hip]
        cases hfh : db.records.find?
            (·.fingerprintHash == generateFingerprintHash hashFn bundle) with
        | some e => simp [hfh]
        | none =>
          simp only [hfh]
          cases hbs : bestSimilarScan bundle db.records with
          | none => simp [hbs]
          | some pr =>
            obtain ⟨rec, analysis⟩ := pr
            simp only [hbs]
            by_cases h5 : analysis.isHighlySuspicious = true
            · simp [h5]
            · have h5' : analysis.isHighlySuspicious = false := by simpa using h5
              simp [h5']
      · simp only [hip, ne_eq, not_false_eq_true, if_true, ite_true]
        cases hipc : db.records.find? (·.ip == ip) with
        | some r =>
          simp only [hipc]
          by_cases h3 : (r.username != username) = true
          · simp [h3]
          · have h3' : (r.username != username) = false := by simpa using h3
            simp only [h3', Bool.false_eq_true, if_false]
            cases hfh : db.records.find?
                (·.fingerprintHash == generateFingerprintHash hashFn bundle) with
            | some e => simp [hfh, h3']
            | none =>
              simp only [hfh]
              cases hbs : bestSimilarScan bundle db.records with
              | none => simp [hbs, h3']
              | some pr =>
                obtain ⟨rec, analysis⟩ := pr
                simp only [hbs]
                by_cases h5 : analysis.isHighlySuspicious = true
                · simp [h5, h3']
                · have h5' : analysis.isHighlySuspicious = false := by simpa using h5
                  simp [h5', h3']
        | none =>
          simp only [hipc]
          cases hfh : db.records.find?
              (·.fingerprintHash == generateFingerprintHash hashFn bundle) with
          | some e => simp [hfh]
          | none =>
            simp only [hfh]
            cases hbs : bestSimilarScan bundle db.records with
            | none => simp [hbs]
            | some pr =>
              obtain ⟨rec, analysis⟩ := pr
              simp only [hbs]
              by_cases h5 : analysis.isHighlySuspicious = true
              · simp [h5]
              · have h5' : analysis.isHighlySuspicious = false := by simpa using h5
                simp [h5']
